import Mathlib

/-!
Verification of the RadioGoGo directory-API client and theming helpers.

The embedding covers:
* `src/common/station_query.go` — the `StationQuery` string constants;
* `src/models/theme.go` — `Theme.StyleBottomBar`;
* the `RadioBrowser` client (construction, `GetStations`, `ClickStation`),
  whose implementation file is absent from the sources; those definitions are
  modelled from the specification and marked as such in their doc comments.
-/

set_option autoImplicit false

namespace RadioGoGo

/-! ### src/common/station_query.go

In Go, `StationQuery` is a string type; each declared constant is both the
name of a query kind and the fixed URL path segment for that kind. -/

/-- `type StationQuery string` from src/common/station_query.go. -/
abbrev StationQuery := String

def StationQueryAll : StationQuery := ""

def StationQueryByUuid : StationQuery := "byuuid"

def StationQueryByName : StationQuery := "byname"

def StationQueryByNameExact : StationQuery := "bynameexact"

def StationQueryByCodec : StationQuery := "bycodec"

def StationQueryByCodecExact : StationQuery := "bycodecexact"

def StationQueryByCountry : StationQuery := "bycountry"

def StationQueryByCountryExact : StationQuery := "bycountryexact"

def StationQueryByCountryCodeExact : StationQuery := "bycountrycodeexact"

def StationQueryByState : StationQuery := "bystate"

def StationQueryByStateExact : StationQuery := "bystateexact"

def StationQueryByLanguage : StationQuery := "bylanguage"

def StationQueryByLanguageExact : StationQuery := "bylanguageexact"

def StationQueryByTag : StationQuery := "bytag"

def StationQueryByTagExact : StationQuery := "bytagexact"

/-- The declared `StationQuery` constants, in source order
(src/common/station_query.go lines 27–41). -/
def stationQueryConstants : List StationQuery :=
  [ StationQueryAll
  , StationQueryByUuid
  , StationQueryByName
  , StationQueryByNameExact
  , StationQueryByCodec
  , StationQueryByCodecExact
  , StationQueryByCountry
  , StationQueryByCountryExact
  , StationQueryByCountryCodeExact
  , StationQueryByState
  , StationQueryByStateExact
  , StationQueryByLanguage
  , StationQueryByLanguageExact
  , StationQueryByTag
  , StationQueryByTagExact
  ]

/-- The query kinds as a closed enumeration (the spec describes the type as a
closed enumeration of variants, one per declared constant). -/
inductive StationQueryKind where
  | all
  | byUuid
  | byName
  | byNameExact
  | byCodec
  | byCodecExact
  | byCountry
  | byCountryExact
  | byCountryCodeExact
  | byState
  | byStateExact
  | byLanguage
  | byLanguageExact
  | byTag
  | byTagExact
deriving DecidableEq, Repr

/-- The fixed path segment of each query kind: the value of the corresponding
Go constant. -/
def StationQueryKind.toSegment : StationQueryKind → StationQuery
  | .all => StationQueryAll
  | .byUuid => StationQueryByUuid
  | .byName => StationQueryByName
  | .byNameExact => StationQueryByNameExact
  | .byCodec => StationQueryByCodec
  | .byCodecExact => StationQueryByCodecExact
  | .byCountry => StationQueryByCountry
  | .byCountryExact => StationQueryByCountryExact
  | .byCountryCodeExact => StationQueryByCountryCodeExact
  | .byState => StationQueryByState
  | .byStateExact => StationQueryByStateExact
  | .byLanguage => StationQueryByLanguage
  | .byLanguageExact => StationQueryByLanguageExact
  | .byTag => StationQueryByTag
  | .byTagExact => StationQueryByTagExact

/-- All variants of the enumeration, in declaration order. -/
def StationQueryKind.values : List StationQueryKind :=
  [ .all, .byUuid, .byName, .byNameExact, .byCodec, .byCodecExact
  , .byCountry, .byCountryExact, .byCountryCodeExact, .byState, .byStateExact
  , .byLanguage, .byLanguageExact, .byTag, .byTagExact ]

/-! ### src/models/theme.go -/

/-- A `Theme` as used by `StyleBottomBar`: the two lipgloss block styles are
external-library values whose only use here is their `Render` method, so they
are embedded as rendering functions. -/
structure Theme where
  PrimaryBlock : String → String
  SecondaryBlock : String → String

/-- `Theme.StyleBottomBar` from src/models/theme.go lines 103–115: iterate over
the commands with their indices, rendering even indices with the primary block
style and odd indices with the secondary block style, accumulating by string
append starting from the empty string. -/
def Theme.StyleBottomBar (t : Theme) (commands : List String) : String :=
  commands.enum.foldl
    (fun bottomBar ic =>
      bottomBar ++ (if ic.1 % 2 == 0 then t.PrimaryBlock ic.2 else t.SecondaryBlock ic.2))
    ""

/-- The bottom bar described directly: the in-order concatenation of each
command rendered with the primary style at even indices and the secondary
style at odd indices. -/
def Theme.bottomBarSpec (t : Theme) (commands : List String) : String :=
  String.join (commands.enum.map
    (fun ic => if ic.1 % 2 == 0 then t.PrimaryBlock ic.2 else t.SecondaryBlock ic.2))

theorem string_foldl_append :
    ∀ (l : List String) (s : String),
      l.foldl (fun a b => a ++ b) s = s ++ l.foldl (fun a b => a ++ b) "" := by
  intro l
  induction l with
  | nil => intro s; simp
  | cons x xs ih =>
    intro s
    simp only [List.foldl_cons, String.empty_append]
    rw [ih (s ++ x), ih x, String.append_assoc]

theorem foldl_append_eq_join {α : Type} (f : α → String) :
    ∀ (l : List α) (init : String),
      l.foldl (fun acc x => acc ++ f x) init = init ++ String.join (l.map f) := by
  intro l
  induction l with
  | nil => intro init; simp [String.join]
  | cons x xs ih =>
    intro init
    simp only [List.foldl_cons, List.map_cons, String.join, String.empty_append]
    rw [ih, string_foldl_append (List.map f xs) (f x), String.append_assoc]
    rfl

/-! ### The RadioBrowser client

The implementation file of the client is not among the sources; only its test
file is. The definitions below are therefore modelled from the specification
(sections 4.1–4.6, 6, 7) and checked against the behaviours the test file
pins down. -/

/-- A JSON value, as produced by the standard JSON decoder. Response bodies
are modelled as already-parsed JSON values; JSON text parsing belongs to the
language's standard library, not to this repository. -/
inductive Json where
  | null
  | bool (b : Bool)
  | num (n : Int)
  | str (s : String)
  | arr (xs : List Json)
  | obj (fields : List (String × Json))

/-- A parsed URL value: scheme, host (authority) and path. -/
structure Url where
  scheme : String
  host : String
  path : String

/-- Rendering a `Url` back to a string, as the test file does with
`baseUrl.String()`. -/
def Url.render (u : Url) : String :=
  u.scheme ++ "://" ++ u.host ++ u.path

/-- An HTTP request as the client builds it: method, target URL components,
query parameters and headers. -/
structure HttpRequest where
  method : String
  scheme : String
  host : String
  path : String
  query : List (String × String)
  headers : List (String × String)

/-- An HTTP response: status code and a (decoded JSON) body. -/
structure HttpResponse where
  statusCode : Nat
  body : Json

/-- The injected HTTP transport: `Do(request) -> (response, error)`. -/
abbrev Transport := HttpRequest → Except String HttpResponse

/-- The injected resolution capability's outcome:
`LookupIP(hostname) -> (sequence of address-strings, error)`. -/
abbrev LookupResult := Except String (List String)

/-- The client's error taxonomy (spec section 7). -/
inductive BrowserError where
  | resolutionError (msg : String)
  | urlConstructionError (msg : String)
  | transportError (msg : String)
  | decodeError (msg : String)

/-- Modelled from the spec: the fixed `User-Agent` identifier (`data.UserAgent`
in the tests; its concrete value is not among the sources and no claim depends
on it). -/
def UserAgent : String := "RadioGoGo"

/-- Modelled from the spec (section 4.2): classify the address as IPv6 when it
contains a colon; if IPv6, render as `[address]`, otherwise render as-is. -/
def formatHost (addr : String) : String :=
  if addr.data.contains ':' then "[" ++ addr ++ "]" else addr

/-- Modelled from the spec: a character the strict URL parser accepts in the
authority of `http://<host>/json` (letters, digits, and `.-_~:[]`). -/
def authorityChar (c : Char) : Bool :=
  c.isAlphanum || c = '.' || c = '-' || c = '_' || c = '~' || c = ':' || c = '[' || c = ']'

/-- Modelled from the spec (section 4.2): the strict URL parser applied to
`http://<host>/json`. It rejects a host containing characters illegal in a
URL authority, which is the failure surfaced by the malformed-address test. -/
def parseBaseUrl (host : String) : Except String Url :=
  if host.data.all authorityChar then
    Except.ok { scheme := "http", host := host, path := "/json" }
  else
    Except.error ("parse \x22http://" ++ host ++ "/json\x22: invalid URL authority")

/-- The constructed client: an immutable base URL fixed at construction. -/
structure RadioBrowserImpl where
  baseUrl : Url

/-- Modelled from the spec (sections 4.1–4.2, 4.6):
`NewRadioBrowserWithDependencies` resolves the service hostname once (the
outcome of the injected lookup is the argument), propagates a resolution
failure verbatim, otherwise formats the first resolved address, builds
`http://<formatted-address>/json` with the strict URL parser, and either
returns a ready client or the parser's error. -/
def NewRadioBrowserWithDependencies (lookup : LookupResult) :
    Except BrowserError RadioBrowserImpl :=
  match lookup with
  | Except.error e => Except.error (BrowserError.resolutionError e)
  | Except.ok ips =>
    match parseBaseUrl (formatHost (ips.headD "")) with
    | Except.error e => Except.error (BrowserError.urlConstructionError e)
    | Except.ok u => Except.ok { baseUrl := u }

/-- The resolution-error message of a construction outcome, when the outcome
is a resolution failure. -/
def resolutionFailure (r : Except BrowserError RadioBrowserImpl) : Option String :=
  match r with
  | Except.error (BrowserError.resolutionError e) => some e
  | _ => none

/-- The URL-construction-error message of a construction outcome, when the
outcome is a URL-construction failure. -/
def urlConstructionFailure (r : Except BrowserError RadioBrowserImpl) : Option String :=
  match r with
  | Except.error (BrowserError.urlConstructionError e) => some e
  | _ => none

/-- Whether a construction outcome produced a client. -/
def constructionSucceeded (r : Except BrowserError RadioBrowserImpl) : Bool :=
  match r with
  | Except.ok _ => true
  | Except.error _ => false

/-- An uppercase hexadecimal digit. -/
def hexDigit (n : Nat) : Char :=
  if n < 10 then Char.ofNat (48 + n) else Char.ofNat (55 + n)

/-- A character kept verbatim by path escaping (RFC 3986 unreserved). -/
def unreservedChar (c : Char) : Bool :=
  c.isAlphanum || c = '-' || c = '.' || c = '_' || c = '~'

/-- Percent-escaping of one character. -/
def escapeChar (c : Char) : List Char :=
  if unreservedChar c then [c]
  else ['%', hexDigit (c.toNat / 16 % 16), hexDigit (c.toNat % 16)]

/-- Modelled from the spec (section 4.3): path-escaping of the caller-supplied
search term (the standard library's path escaping; unreserved characters pass
through unchanged, everything else is percent-encoded). -/
def pathEscape (s : String) : String :=
  String.mk (List.flatten (s.data.map escapeChar))

/-- Go's boolean-to-string encoding, used for the query parameters. -/
def goBool (b : Bool) : String :=
  if b then "true" else "false"

/-- Modelled from the spec (section 4.3, path rule): the path under the base
URL's `/json` — `/stations` for the All kind, otherwise
`/stations/<segment>/<escaped search term>` where the segment is the query
kind's string value. -/
def stationsSuffix (q : StationQuery) (searchTerm : String) : String :=
  if q = StationQueryAll then "/stations"
  else "/stations/" ++ q ++ "/" ++ pathEscape searchTerm

/-- A station record (spec section 3; the fields the spec names). -/
structure Station where
  stationUuid : String
  name : String
  url : String
  codec : String
  country : String
  tags : String
  lastCheckOk : Bool

/-- A click-registration outcome (spec sections 3 and 6). -/
structure ClickResult where
  ok : Bool
  message : String
  stationUuid : String
  name : String
  url : String

/-- Looks up a field of a JSON object by key. -/
def lookupField (fields : List (String × Json)) (key : String) : Option Json :=
  match fields.find? (fun p => p.1 == key) with
  | some p => some p.2
  | none => none

/-- Decodes a string-typed field: absent fields take the zero value, a
non-string value is a decode error (the standard decoder's behaviour). -/
def getStrField (fields : List (String × Json)) (key : String) : Except String String :=
  match lookupField fields key with
  | none => Except.ok ""
  | some (Json.str s) => Except.ok s
  | some _ => Except.error ("DecodeError: field " ++ key ++ " is not a string")

/-- Decodes a boolean-typed field: absent fields take the zero value, a
non-boolean value is a decode error. -/
def getBoolField (fields : List (String × Json)) (key : String) : Except String Bool :=
  match lookupField fields key with
  | none => Except.ok false
  | some (Json.bool b) => Except.ok b
  | some _ => Except.error ("DecodeError: field " ++ key ++ " is not a boolean")

/-- Modelled from the spec (section 4.5): decoding one station object. -/
def decodeStation (j : Json) : Except String Station :=
  match j with
  | Json.obj fields => do
    let uuid ← getStrField fields "stationuuid"
    let name ← getStrField fields "name"
    let url ← getStrField fields "url"
    let codec ← getStrField fields "codec"
    let country ← getStrField fields "country"
    let tags ← getStrField fields "tags"
    let lastCheckOk ← getBoolField fields "lastcheckok"
    Except.ok { stationUuid := uuid, name := name, url := url, codec := codec
              , country := country, tags := tags, lastCheckOk := lastCheckOk }
  | _ => Except.error "DecodeError: station is not an object"

/-- Modelled from the spec (section 4.5): decoding the `GetStations` response
body, a JSON array of station objects; the empty array decodes to the empty
sequence and is a success. -/
def decodeStations (j : Json) : Except String (List Station) :=
  match j with
  | Json.arr xs => xs.mapM decodeStation
  | _ => Except.error "DecodeError: stations response is not an array"

/-- Modelled from the spec (section 4.5): decoding the `ClickStation` response
body, a JSON object with fields ok, message, stationuuid, name, url. -/
def decodeClickResult (j : Json) : Except String ClickResult :=
  match j with
  | Json.obj fields => do
    let ok ← getBoolField fields "ok"
    let message ← getStrField fields "message"
    let uuid ← getStrField fields "stationuuid"
    let name ← getStrField fields "name"
    let url ← getStrField fields "url"
    Except.ok { ok := ok, message := message, stationUuid := uuid
              , name := name, url := url }
  | _ => Except.error "DecodeError: click response is not an object"

/-- The two headers every request carries (spec section 4.4). -/
def clientHeaders : List (String × String) :=
  [("Accept", "application/json"), ("User-Agent", UserAgent)]

/-- Modelled from the spec (sections 4.3–4.4): the single GET request
`GetStations` builds against the fixed base URL. -/
def getStationsRequest (b : RadioBrowserImpl) (q : StationQuery)
    (searchTerm order : String) (reverse : Bool) (offset limit : Nat)
    (hideBroken : Bool) : HttpRequest :=
  { method := "GET"
  , scheme := b.baseUrl.scheme
  , host := b.baseUrl.host
  , path := b.baseUrl.path ++ stationsSuffix q searchTerm
  , query := [ ("order", order), ("reverse", goBool reverse)
             , ("offset", toString offset), ("limit", toString limit)
             , ("hideBroken", goBool hideBroken) ]
  , headers := clientHeaders }

/-- Modelled from the spec (sections 4.4–4.6): `GetStations` builds its one
request, executes it through the injected transport, and decodes the body;
the requests issued are returned alongside the outcome. -/
def GetStations (b : RadioBrowserImpl) (transport : Transport) (q : StationQuery)
    (searchTerm order : String) (reverse : Bool) (offset limit : Nat)
    (hideBroken : Bool) : Except BrowserError (List Station) × List HttpRequest :=
  let req := getStationsRequest b q searchTerm order reverse offset limit hideBroken
  let outcome :=
    match transport req with
    | Except.error e => Except.error (BrowserError.transportError e)
    | Except.ok resp =>
      match decodeStations resp.body with
      | Except.error e => Except.error (BrowserError.decodeError e)
      | Except.ok stations => Except.ok stations
  (outcome, [req])

/-- Modelled from the spec (sections 4.4, 4.6): the single POST request
`ClickStation` builds, keyed by the station's UUID. -/
def clickStationRequest (b : RadioBrowserImpl) (stationUuid : String) : HttpRequest :=
  { method := "POST"
  , scheme := b.baseUrl.scheme
  , host := b.baseUrl.host
  , path := b.baseUrl.path ++ "/url/" ++ stationUuid
  , query := []
  , headers := clientHeaders }

/-- Modelled from the spec (sections 4.4–4.6): `ClickStation` issues its one
POST request and returns the decoded `ClickResult` verbatim. -/
def ClickStation (b : RadioBrowserImpl) (transport : Transport) (station : Station) :
    Except BrowserError ClickResult × List HttpRequest :=
  let req := clickStationRequest b station.stationUuid
  let outcome :=
    match transport req with
    | Except.error e => Except.error (BrowserError.transportError e)
    | Except.ok resp =>
      match decodeClickResult resp.body with
      | Except.error e => Except.error (BrowserError.decodeError e)
      | Except.ok r => Except.ok r
  (outcome, [req])

/-- Whether the strict URL parser accepted its input. -/
def parseSucceeded (r : Except String Url) : Bool :=
  match r with
  | Except.ok _ => true
  | Except.error _ => false

/-! ### Theorems -/

theorem parseBaseUrl_shape (host : String) :
    parseBaseUrl host = Except.ok { scheme := "http", host := host, path := "/json" } ∨
    ∃ e, parseBaseUrl host = Except.error e := by
  unfold parseBaseUrl
  split
  · exact Or.inl rfl
  · exact Or.inr ⟨_, rfl⟩

theorem constructed_baseUrl {res : LookupResult} {b : RadioBrowserImpl}
    (h : NewRadioBrowserWithDependencies res = Except.ok b) :
    b.baseUrl.scheme = "http" ∧ b.baseUrl.path = "/json" ∧
    b.baseUrl.host = formatHost ((res.toOption.getD []).headD "") := by
  cases res with
  | error e => simp [NewRadioBrowserWithDependencies] at h
  | ok ips =>
    simp only [NewRadioBrowserWithDependencies] at h
    rcases parseBaseUrl_shape (formatHost (ips.headD "")) with hp | ⟨e, hp⟩ <;> rw [hp] at h
    · cases h
      exact ⟨rfl, rfl, rfl⟩
    · cases h

/-- C1: for every resolved address passed to base-URL construction, if the
address contains a colon the constructed base URL's host is the address
wrapped in brackets, and otherwise it is the address as-is, never bracketed. -/
theorem baseUrl_host_bracketing (addr : String) (b : RadioBrowserImpl)
    (h : NewRadioBrowserWithDependencies (Except.ok [addr]) = Except.ok b) :
    b.baseUrl.host = if addr.data.contains ':' then "[" ++ addr ++ "]" else addr := by
  have hc := (constructed_baseUrl h).2.2
  simpa [formatHost] using hc

/-- Witness for C1: the IPv6 literal of the test file resolves to the base URL
`http://[2001:db8::1]/json`, whose host is the bracketed address. -/
theorem baseUrl_host_bracketing_witness :
    ({ baseUrl := { scheme := "http", host := "[2001:db8::1]", path := "/json" } } :
        RadioBrowserImpl).baseUrl.host =
      if "2001:db8::1".data.contains ':' then "[" ++ "2001:db8::1" ++ "]"
      else "2001:db8::1" :=
  baseUrl_host_bracketing "2001:db8::1" _ (by rfl)

/-- Counterexample for C5: construction can fail even though the injected
resolver returned no error — a resolved address that the strict URL parser
rejects makes construction fail, and the failure is not a resolution error. -/
theorem construction_fails_without_resolver_error :
    constructionSucceeded (NewRadioBrowserWithDependencies
        (Except.ok ["&!@#*)!@)@)@"])) = false ∧
    resolutionFailure (NewRadioBrowserWithDependencies
        (Except.ok ["&!@#*)!@)@)@"])) = none := by
  exact ⟨rfl, rfl⟩

/-- C5 (amended): construction fails with a resolution error carrying exactly
the resolver's message if and only if the injected resolver returns an error;
when the resolver succeeds, no resolution error is produced (though a
URL-construction error still can be). -/
theorem construction_resolution_error (res : LookupResult) :
    resolutionFailure (NewRadioBrowserWithDependencies res) =
      (match res with
       | Except.error e => some e
       | Except.ok _ => none) := by
  cases res with
  | error e => rfl
  | ok ips =>
    simp only [NewRadioBrowserWithDependencies]
    cases parseBaseUrl (formatHost (ips.headD "")) <;> rfl

/-- C6: construction fails with a URL-construction error — carrying the
parser's error — exactly when the strict URL parser rejects the formatted
resolved address, and produces a client exactly when the parser accepts it. -/
theorem construction_url_error (addr : String) :
    urlConstructionFailure (NewRadioBrowserWithDependencies (Except.ok [addr]))
        = (match parseBaseUrl (formatHost addr) with
           | Except.error e => some e
           | Except.ok _ => none) ∧
    constructionSucceeded (NewRadioBrowserWithDependencies (Except.ok [addr]))
        = parseSucceeded (parseBaseUrl (formatHost addr)) := by
  simp only [NewRadioBrowserWithDependencies, List.headD_cons]
  cases parseBaseUrl (formatHost addr) <;> exact ⟨rfl, rfl⟩

/-- C2: for every query kind in the enumeration, `GetStations` issues exactly
one HTTP GET request, whose path is `/json/stations` for the All kind and
`/json/stations/<segment>/<escaped search term>` for every other kind, and
whose headers include `Accept: application/json` and the fixed User-Agent. -/
theorem getStations_one_get_request (res : LookupResult) (b : RadioBrowserImpl)
    (hb : NewRadioBrowserWithDependencies res = Except.ok b)
    (q : StationQuery) (hq : q ∈ stationQueryConstants)
    (searchTerm order : String) (reverse : Bool) (offset limit : Nat)
    (hideBroken : Bool) (transport : Transport) :
    (GetStations b transport q searchTerm order reverse offset limit hideBroken).2.length
        = 1 ∧
    ∀ r ∈ (GetStations b transport q searchTerm order reverse offset limit hideBroken).2,
      r.method = "GET" ∧
      r.path = (if q = StationQueryAll then "/json/stations"
                else "/json/stations/" ++ q ++ "/" ++ pathEscape searchTerm) ∧
      ("Accept", "application/json") ∈ r.headers ∧
      ("User-Agent", UserAgent) ∈ r.headers := by
  have hpath : b.baseUrl.path = "/json" := (constructed_baseUrl hb).2.1
  refine ⟨rfl, ?_⟩
  intro r hr
  have hreq : r = getStationsRequest b q searchTerm order reverse offset limit hideBroken := by
    simpa [GetStations] using hr
  subst hreq
  refine ⟨rfl, ?_, ?_, ?_⟩
  · show b.baseUrl.path ++ stationsSuffix q searchTerm = _
    rw [hpath]
    unfold stationsSuffix
    by_cases hq0 : q = StationQueryAll
    · simp [hq0]
    · have hj : "/json" ++ "/stations/" = "/json/stations/" := rfl
      simp only [hq0, if_false, ← String.append_assoc, hj]
  · simp [getStationsRequest, clientHeaders]
  · simp [getStationsRequest, clientHeaders]

/-- Witness for C2: the ByUuid kind with the test's inputs issues one GET
request with path `/json/stations/byuuid/searchTerm` and both headers. -/
theorem getStations_one_get_request_witness :
    (GetStations { baseUrl := { scheme := "http", host := "127.0.0.1", path := "/json" } }
        (fun _ => Except.error "eof") StationQueryByUuid "searchTerm" "name"
        false 0 10 true).2.length = 1 ∧
    ∀ r ∈ (GetStations { baseUrl := { scheme := "http", host := "127.0.0.1", path := "/json" } }
        (fun _ => Except.error "eof") StationQueryByUuid "searchTerm" "name"
        false 0 10 true).2,
      r.method = "GET" ∧
      r.path = (if StationQueryByUuid = StationQueryAll then "/json/stations"
                else "/json/stations/" ++ StationQueryByUuid ++ "/" ++ pathEscape "searchTerm") ∧
      ("Accept", "application/json") ∈ r.headers ∧
      ("User-Agent", UserAgent) ∈ r.headers :=
  getStations_one_get_request (Except.ok ["127.0.0.1"])
    { baseUrl := { scheme := "http", host := "127.0.0.1", path := "/json" } }
    (by rfl) StationQueryByUuid (by decide) "searchTerm" "name" false 0 10 true
    (fun _ => Except.error "eof")

/-- Counterexample for C3: the query-kind enumeration does not have 14
variants — the source declares 15 `StationQuery` constants. -/
theorem stationQuery_not_fourteen : ¬ stationQueryConstants.length = 14 := by
  decide

/-- C3 (amended): the query-kind type is a closed enumeration of exactly 15
variants, each mapping to a fixed path segment, the empty string for All. -/
theorem stationQuery_enumeration :
    stationQueryConstants.length = 15 ∧
    StationQueryKind.values.map StationQueryKind.toSegment = stationQueryConstants ∧
    (∀ k : StationQueryKind, k ∈ StationQueryKind.values) ∧
    StationQueryKind.toSegment StationQueryKind.all = "" := by
  refine ⟨rfl, rfl, ?_, rfl⟩
  intro k
  cases k <;> simp [StationQueryKind.values]

/-- The client the tests construct from the resolved address `127.0.0.1`. -/
def testBrowser : RadioBrowserImpl :=
  { baseUrl := { scheme := "http", host := "127.0.0.1", path := "/json" } }

/-- The station the click test uses. -/
def testStation : Station :=
  { stationUuid := "941ef6f1-0699-4821-95b1-2b678e3ff62e", name := "", url := ""
  , codec := "", country := "", tags := "", lastCheckOk := false }

/-- The click test's response payload. -/
def testClickBody : Json :=
  Json.obj
    [ ("ok", Json.bool true)
    , ("message", Json.str "retrieved station url")
    , ("stationuuid", Json.str "9617a958-0601-11e8-ae97-52543be04c81")
    , ("name", Json.str "Station name")
    , ("url", Json.str "http://this.is.an.url") ]

/-- The click test's response. -/
def testClickResponse : HttpResponse :=
  { statusCode := 200, body := testClickBody }

/-- The decoded form of the click test's payload. -/
def testClickResult : ClickResult :=
  { ok := true, message := "retrieved station url"
  , stationUuid := "9617a958-0601-11e8-ae97-52543be04c81"
  , name := "Station name", url := "http://this.is.an.url" }

/-- C4: `ClickStation` issues exactly one POST request to
`/json/url/<station UUID>` against the fixed base URL with the two fixed
headers, and on a well-formed success payload returns it with `ok` true. -/
theorem clickStation_post_request (res : LookupResult) (b : RadioBrowserImpl)
    (hb : NewRadioBrowserWithDependencies res = Except.ok b)
    (station : Station) (transport : Transport) (resp : HttpResponse)
    (r : ClickResult)
    (ht : transport (clickStationRequest b station.stationUuid) = Except.ok resp)
    (hr : decodeClickResult resp.body = Except.ok r)
    (hok : r.ok = true) :
    (ClickStation b transport station).2 =
      [{ method := "POST", scheme := "http", host := b.baseUrl.host
       , path := "/json/url/" ++ station.stationUuid, query := []
       , headers := [("Accept", "application/json"), ("User-Agent", UserAgent)] }] ∧
    (ClickStation b transport station).1 = Except.ok r ∧
    r.ok = true := by
  obtain ⟨hscheme, hpath, _⟩ := constructed_baseUrl hb
  refine ⟨?_, ?_, hok⟩
  · have hj : "/json" ++ "/url/" = "/json/url/" := rfl
    simp only [ClickStation, clickStationRequest, clientHeaders, hscheme, hpath,
      ← String.append_assoc, hj]
  · simp [ClickStation, ht, hr]

/-- Witness for C4: the test's click — station UUID
`941ef6f1-0699-4821-95b1-2b678e3ff62e` against mirror `127.0.0.1` — issues
one POST to `/json/url/941ef6f1-0699-4821-95b1-2b678e3ff62e` and succeeds
with `ok` true. -/
theorem clickStation_post_request_witness :
    (ClickStation testBrowser (fun _ => Except.ok testClickResponse) testStation).2 =
      [{ method := "POST", scheme := "http", host := testBrowser.baseUrl.host
       , path := "/json/url/" ++ testStation.stationUuid, query := []
       , headers := [("Accept", "application/json"), ("User-Agent", UserAgent)] }] ∧
    (ClickStation testBrowser (fun _ => Except.ok testClickResponse) testStation).1 =
      Except.ok testClickResult ∧
    testClickResult.ok = true :=
  clickStation_post_request (Except.ok ["127.0.0.1"]) testBrowser (by rfl)
    testStation (fun _ => Except.ok testClickResponse) testClickResponse
    testClickResult (by rfl) (by rfl) (by rfl)

/-- C7: a 2xx response whose body is the empty JSON array makes `GetStations`
succeed with the empty station sequence and no error. -/
theorem getStations_empty_array (b : RadioBrowserImpl) (transport : Transport)
    (q : StationQuery) (searchTerm order : String) (reverse : Bool)
    (offset limit : Nat) (hideBroken : Bool) (resp : HttpResponse)
    (ht : transport (getStationsRequest b q searchTerm order reverse offset limit hideBroken)
        = Except.ok resp)
    (h2 : 200 ≤ resp.statusCode) (h3 : resp.statusCode < 300)
    (hbody : resp.body = Json.arr []) :
    (GetStations b transport q searchTerm order reverse offset limit hideBroken).1
      = Except.ok [] := by
  simp only [GetStations, ht, hbody, decodeStations]
  rfl

/-- Witness for C7: a transport answering status 200 with body `[]` makes
`GetStations` return the empty list. -/
theorem getStations_empty_array_witness :
    200 ≤ 200 ∧ 200 < 300 ∧
    (GetStations { baseUrl := { scheme := "http", host := "127.0.0.1", path := "/json" } }
        (fun _ => Except.ok { statusCode := 200, body := Json.arr [] })
        StationQueryAll "" "name" false 0 10 true).1 = Except.ok [] :=
  ⟨by decide, by decide,
    getStations_empty_array
      { baseUrl := { scheme := "http", host := "127.0.0.1", path := "/json" } }
      (fun _ => Except.ok { statusCode := 200, body := Json.arr [] })
      StationQueryAll "" "name" false 0 10 true
      { statusCode := 200, body := Json.arr [] }
      (by rfl) (by decide) (by decide) (by rfl)⟩

/-- C8: the 15 declared `StationQuery` constants are pairwise distinct, and
the All constant is the only one whose value is the empty string, so the
kind-to-segment mapping is injective. -/
theorem stationQuery_constants_distinct :
    stationQueryConstants.Nodup ∧
    ∀ q ∈ stationQueryConstants, (q = "" ↔ q = StationQueryAll) := by
  constructor
  · decide
  · decide

/-- Witness for C8: the ByUuid constant is in the enumeration, and its value
is neither empty nor equal to the All constant. -/
theorem stationQuery_constants_distinct_witness :
    StationQueryByUuid ∈ stationQueryConstants ∧
    (StationQueryByUuid = "" ↔ StationQueryByUuid = StationQueryAll) :=
  ⟨by decide, stationQuery_constants_distinct.2 StationQueryByUuid (by decide)⟩

/-- C9: `ClickStation` returns the decoded payload verbatim with no
cross-check between request and response — it succeeds with the payload's
fields even when the payload's stationuuid differs from the clicked
station's UUID. -/
theorem clickStation_no_cross_check (b : RadioBrowserImpl) (station : Station)
    (transport : Transport) (resp : HttpResponse) (r : ClickResult)
    (ht : transport (clickStationRequest b station.stationUuid) = Except.ok resp)
    (hr : decodeClickResult resp.body = Except.ok r)
    (hne : r.stationUuid ≠ station.stationUuid) :
    (ClickStation b transport station).1 = Except.ok r := by
  simp [ClickStation, ht, hr]

/-- Witness for C9: the test's payload carries stationuuid
`9617a958-0601-11e8-ae97-52543be04c81`, different from the clicked station's
`941ef6f1-0699-4821-95b1-2b678e3ff62e`, and the call still succeeds with the
payload. -/
theorem clickStation_no_cross_check_witness :
    testClickResult.stationUuid ≠ testStation.stationUuid ∧
    (ClickStation testBrowser (fun _ => Except.ok testClickResponse) testStation).1 =
      Except.ok testClickResult :=
  ⟨by decide,
    clickStation_no_cross_check testBrowser testStation
      (fun _ => Except.ok testClickResponse) testClickResponse testClickResult
      (by rfl) (by rfl) (by decide)⟩

/-- C10: `Theme.StyleBottomBar` is the in-order concatenation of the commands
rendered with the primary block style at even indices and the secondary block
style at odd indices, and it returns the empty string on the empty list. -/
theorem styleBottomBar_alternating (t : Theme) (commands : List String) :
    t.StyleBottomBar commands = t.bottomBarSpec commands ∧
    t.StyleBottomBar [] = "" := by
  refine ⟨?_, rfl⟩
  have h := foldl_append_eq_join
    (fun ic : Nat × String =>
      if ic.1 % 2 == 0 then t.PrimaryBlock ic.2 else t.SecondaryBlock ic.2)
    commands.enum ""
  rw [String.empty_append] at h
  exact h

end RadioGoGo
